import Mathlib

/-!
Verification of the chat-studio admission-control core: the token-bucket
rate limiter (`backend/middleware/rate_limiter.py`), its FastAPI middleware
(`backend/middleware/rate_limit_middleware.py`), the WebSocket token auth
service (`backend/websocket/auth.py`) and the connection manager
(`backend/websocket/connection_manager.py`).

Modelling conventions:
* Python floats are modelled as exact rationals (`ℚ`); Python ints as `ℤ`
  (or `ℕ` for sizes).  `int(x)` is truncation toward zero (`pyInt`).
* A float division whose divisor is zero raises `ZeroDivisionError` in
  Python; the embedding makes every such division explicit and returns
  `Except.error PyErr.zeroDivision` at exactly the points the source
  divides.
* The redis hash store is a finite map from string keys to bucket records,
  threaded explicitly; `hasRedis = false` models `redis_client = None`.
* Wall-clock reads (`time.time()`, `datetime.utcnow()`) are passed in as a
  `now : ℚ` argument (seconds).
-/

set_option maxRecDepth 4000

/-- Association-list lookup, the embedding of Python `dict` reads. -/
def alookup {α : Type} : List (String × α) → String → Option α
  | [], _ => none
  | (k, v) :: rest, key => if k = key then some v else alookup rest key

/-- Association-list update/insert, the embedding of Python `dict` writes. -/
def aset {α : Type} : List (String × α) → String → α → List (String × α)
  | [], key, v => [(key, v)]
  | (k, w) :: rest, key, v =>
    if k = key then (key, v) :: rest else (k, w) :: aset rest key v

/-- Association-list key removal, the embedding of Python `del d[k]`. -/
def aremove {α : Type} : List (String × α) → String → List (String × α)
  | [], _ => []
  | (k, w) :: rest, key =>
    if k = key then rest else (k, w) :: aremove rest key

/-- Python `int(x)` on a float: truncation toward zero. -/
def pyInt (q : ℚ) : ℤ := if 0 ≤ q then ⌊q⌋ else -⌊-q⌋

/-- Stored redis hash for one bucket: fields `tokens` and `last_refill`. -/
structure BucketData where
  tokens : ℚ
  last_refill : ℚ
deriving DecidableEq, Repr

/-- The shared counter store: redis keys to bucket hashes. -/
def Store := List (String × BucketData)

instance : DecidableEq Store := by
  unfold Store
  infer_instance

/-- Read a key from the store. -/
def Store.get (s : Store) (key : String) : Option BucketData :=
  alookup s key

/-- Write both hash fields of a key (redis `hset` ×2; TTL not modelled). -/
def Store.set (s : Store) (key : String) (d : BucketData) : Store :=
  aset s key d

/-- The empty store. -/
def Store.empty : Store := []

/-- Python runtime errors the embedded code can raise. -/
inductive PyErr where
  /-- `ZeroDivisionError`: a float division with divisor `0`. -/
  | zeroDivision
  /-- `KeyError`: `self.tier_buckets["free"]` with no `free` tier. -/
  | keyError
  /-- An exception raised by the redis client when the backing store is
  unreachable.  The store model itself is total, so no embedded operation
  produces this value; it exists so that the middleware's exception
  handling can be stated over it. -/
  | storeUnavailable
deriving DecidableEq, Repr

/-- `TokenBucket.__init__`: capacity, refill rate and the (optional) redis
client, the latter modelled as a presence flag. -/
structure TokenBucket where
  capacity : ℤ
  refill_rate : ℚ
  hasRedis : Bool
deriving DecidableEq, Repr

/-- `TokenBucket._get_bucket_key`. -/
def get_bucket_key (identifier : String) : String :=
  "rate_limit:bucket:" ++ identifier

/-- Result dictionary of `TokenBucket.consume` (`retry_after` is only
present in the rejection dictionary). -/
structure RateInfo where
  allowed : Bool
  remaining : ℤ
  capacity : ℤ
  retry_after : Option ℤ
  reset_at : ℚ
deriving DecidableEq, Repr

namespace TokenBucket

/-- `TokenBucket._get_bucket_state`: read the bucket hash, lazily
initializing an absent bucket to full capacity (a store write). -/
def get_bucket_state (b : TokenBucket) (s : Store) (identifier : String)
    (now : ℚ) : (ℚ × ℚ) × Store :=
  if b.hasRedis = false then (((b.capacity : ℚ), now), s)
  else
    match s.get (get_bucket_key identifier) with
    | none =>
      (((b.capacity : ℚ), now),
        s.set (get_bucket_key identifier) ⟨(b.capacity : ℚ), now⟩)
    | some d => ((d.tokens, d.last_refill), s)

/-- `TokenBucket._set_bucket_state`: write the bucket hash (no-op without
a redis client). -/
def set_bucket_state (b : TokenBucket) (s : Store) (identifier : String)
    (tokens : ℚ) (last_refill : ℚ) : Store :=
  if b.hasRedis = false then s
  else s.set (get_bucket_key identifier) ⟨tokens, last_refill⟩

/-- `TokenBucket.consume`: refill by elapsed time, admit or reject.  The
success branch persists the decremented state *before* building the info
dictionary, so with `refill_rate = 0` the write happens and then the
`reset_at` division raises; the rejection branch raises on the
`retry_after` division without writing. -/
def consume (b : TokenBucket) (s : Store) (identifier : String) (now : ℚ)
    (cost : ℤ) : Store × Except PyErr (Bool × RateInfo) :=
  let st := b.get_bucket_state s identifier now
  let current_tokens := st.1.1
  let last_refill := st.1.2
  let s1 := st.2
  let time_elapsed := now - last_refill
  let tokens_to_add := time_elapsed * b.refill_rate
  let refilled := min (b.capacity : ℚ) (current_tokens + tokens_to_add)
  if (cost : ℚ) ≤ refilled then
    let remaining := refilled - (cost : ℚ)
    let s2 := b.set_bucket_state s1 identifier remaining now
    if b.refill_rate = 0 then (s2, .error .zeroDivision)
    else
      (s2, .ok (true,
        { allowed := true
          remaining := pyInt remaining
          capacity := b.capacity
          retry_after := none
          reset_at := now + ((b.capacity : ℚ) - remaining) / b.refill_rate }))
  else
    if b.refill_rate = 0 then (s1, .error .zeroDivision)
    else
      (s1, .ok (false,
        { allowed := false
          remaining := 0
          capacity := b.capacity
          retry_after := some (pyInt (((cost : ℚ) - refilled) / b.refill_rate))
          reset_at := now + ((b.capacity : ℚ) - refilled) / b.refill_rate }))

end TokenBucket

/-- `RateLimitExceeded` (HTTP 429) or a propagated Python runtime error
escaping `RateLimiter.check_rate_limit`. -/
inductive RLErr where
  | rateLimitExceeded (detail : String) (retry_after : Option ℤ)
  | pyErr (e : PyErr)
deriving DecidableEq, Repr

/-- The slice of a FastAPI `Request` the rate limiter reads: auth
middleware state (`request.state`), the client address and the URL path. -/
structure Request where
  state_user_id : Option String
  state_subscription_tier : Option String
  client : Option String
  url_path : String
deriving DecidableEq, Repr

/-- `RateLimiter.__init__`: the strict IP bucket and the per-tier
buckets.  All buckets share the one (optional) redis client. -/
structure RateLimiter where
  ip_limit : TokenBucket
  tier_buckets : List (String × TokenBucket)
deriving DecidableEq, Repr

/-- The `RateLimiter()` built at startup: tiers `free` (20 req/min),
`pro` (100 req/min), `enterprise` (500 req/min) and an IP bucket of
capacity 60 refilling at 60/60 per second. -/
def mkRateLimiter (hasRedis : Bool) : RateLimiter :=
  { ip_limit := ⟨60, 60 / 60, hasRedis⟩
    tier_buckets :=
      [("free", ⟨20, 20 / 60, hasRedis⟩),
       ("pro", ⟨100, 100 / 60, hasRedis⟩),
       ("enterprise", ⟨500, 500 / 60, hasRedis⟩)] }

namespace RateLimiter

/-- `RateLimiter.get_client_identifier`: prefer the authenticated user id
(Python truthiness: the empty string falls through), else hash the client
IP.  `hash16` embeds `hashlib.sha256(ip).hexdigest()[:16]`; the digest
function itself is not modelled and is passed as a parameter. -/
def get_client_identifier (hash16 : String → String) (req : Request) :
    String :=
  match req.state_user_id with
  | some uid => if uid ≠ "" then "user:" ++ uid else ipFallback
  | none => ipFallback
where
  ipFallback : String :=
    let client_ip := match req.client with | some h => h | none => "unknown"
    "ip:" ++ hash16 client_ip

/-- `RateLimiter.get_user_tier`: the tier attached to the request if it
names a configured bucket (empty string is falsy), else `free`. -/
def get_user_tier (rl : RateLimiter) (req : Request) : String :=
  match req.state_subscription_tier with
  | some t =>
    if t ≠ "" ∧ (alookup rl.tier_buckets t).isSome then t else "free"
  | none => "free"

/-- `RateLimiter.check_rate_limit`: consume the raw-IP bucket first and
raise 429 with its retry-after on rejection; only then consume the tier
bucket keyed by the client identifier. -/
def check_rate_limit (rl : RateLimiter) (hash16 : String → String)
    (s : Store) (req : Request) (now : ℚ) : Store × Except RLErr RateInfo :=
  let identifier := get_client_identifier hash16 req
  let tier := get_user_tier rl req
  let ip := match req.client with | some h => h | none => "unknown"
  match rl.ip_limit.consume s ("ip:" ++ ip) now 1 with
  | (s1, .error e) => (s1, .error (.pyErr e))
  | (s1, .ok (ip_allowed, ip_info)) =>
    if ip_allowed = false then
      (s1, .error (.rateLimitExceeded "Too many requests from your IP address"
        ip_info.retry_after))
    else
      -- `self.tier_buckets.get(tier, self.tier_buckets["free"])`
      match (alookup rl.tier_buckets tier).or
          (alookup rl.tier_buckets "free") with
      | none => (s1, .error (.pyErr .keyError))
      | some bucket =>
        match bucket.consume s1 identifier now 1 with
        | (s2, .error e) => (s2, .error (.pyErr e))
        | (s2, .ok (allowed, info)) =>
          if allowed = false then
            (s2, .error (.rateLimitExceeded
              ("Rate limit exceeded for " ++ tier ++ " tier")
              info.retry_after))
          else (s2, .ok info)

/-- One entry of the `RateLimiter.get_user_limits` status dictionary. -/
structure TierStatus where
  capacity : ℤ
  remaining : ℤ
  refill_rate : ℚ
  reset_at : ℚ
deriving DecidableEq, Repr

/-- Loop body of `RateLimiter.get_user_limits`: project each tier's
current level by applying the refill formula without consuming (the lazy
state read may still initialize an absent bucket). -/
def get_user_limits_go (identifier : String) (now : ℚ) :
    List (String × TokenBucket) → Store →
    Store × Except PyErr (List (String × TierStatus))
  | [], s => (s, .ok [])
  | (tier, b) :: rest, s =>
    let st := b.get_bucket_state s identifier now
    let tokens := st.1.1
    let last_refill := st.1.2
    let s1 := st.2
    let current_tokens :=
      min (b.capacity : ℚ) (tokens + (now - last_refill) * b.refill_rate)
    if b.refill_rate = 0 then (s1, .error .zeroDivision)
    else
      match get_user_limits_go identifier now rest s1 with
      | (s2, .error e) => (s2, .error e)
      | (s2, .ok l) =>
        (s2, .ok ((tier,
          { capacity := b.capacity
            remaining := pyInt current_tokens
            refill_rate := b.refill_rate
            reset_at := now +
              ((b.capacity : ℚ) - current_tokens) / b.refill_rate }) :: l))

/-- `RateLimiter.get_user_limits`: read-only probe of every tier for the
identity `user:<id>`. -/
def get_user_limits (rl : RateLimiter) (s : Store) (user_id : String)
    (now : ℚ) : Store × Except PyErr (List (String × TierStatus)) :=
  get_user_limits_go ("user:" ++ user_id) now rl.tier_buckets s

/-- All-tiers arm of `RateLimiter.reset_user_limit`: force every tier's
bucket for the identity back to its full capacity, in dictionary order. -/
def reset_all_tiers (identifier : String) (now : ℚ) :
    List (String × TokenBucket) → Store → Store
  | [], s => s
  | (_, b) :: rest, s =>
    reset_all_tiers identifier now rest
      (b.set_bucket_state s identifier (b.capacity : ℚ) now)

/-- `RateLimiter.reset_user_limit`: reset one named tier if it is truthy
and configured, else reset all tiers. -/
def reset_user_limit (rl : RateLimiter) (s : Store) (user_id : String)
    (tier : Option String) (now : ℚ) : Store :=
  let identifier := "user:" ++ user_id
  match tier with
  | some t =>
    if t ≠ "" then
      match alookup rl.tier_buckets t with
      | some b => b.set_bucket_state s identifier (b.capacity : ℚ) now
      | none => reset_all_tiers identifier now rl.tier_buckets s
    else reset_all_tiers identifier now rl.tier_buckets s
  | none => reset_all_tiers identifier now rl.tier_buckets s

end RateLimiter

/-- The slice of an HTTP response the middleware manipulates.  `body_tag`
marks the JSON error body (`{"error": "rate_limit_exceeded", ...}`) of the
429 response; ordinary app responses carry `none`. -/
structure HttpResponse where
  status : ℕ
  headers : List (String × String)
  body_tag : Option String
deriving DecidableEq, Repr

/-- Outcome of `RateLimitMiddleware.dispatch`: the response sent to the
client and whether `call_next` ran (i.e. the request reached the app). -/
structure DispatchResult where
  response : HttpResponse
  next_called : Bool
deriving DecidableEq, Repr

/-- The default `exempt_paths` list of `RateLimitMiddleware.__init__`. -/
def default_exempt_paths : List String :=
  ["/health", "/docs", "/redoc", "/openapi.json", "/favicon.ico"]

/-- Python `str.startswith`: prefix match on the character sequence. -/
def startswith (s p : String) : Bool :=
  p.data.isPrefixOf s.data

/-- `RateLimitMiddleware._is_exempt`: prefix match against the allow-list. -/
def is_exempt (exempt_paths : List String) (path : String) : Bool :=
  exempt_paths.any (fun p => startswith path p)

/-- `RateLimitMiddleware._add_timing_header` guarded by `enable_timing`;
the measured wall-clock duration string is not modelled. -/
def add_timing_header (enable_timing : Bool) (resp : HttpResponse) :
    HttpResponse :=
  if enable_timing then
    { resp with headers := resp.headers ++ [("X-Process-Time", "elapsed")] }
  else resp

/-- `RateLimiter.get_rate_limit_headers`. -/
def get_rate_limit_headers (info : RateInfo) : List (String × String) :=
  [("X-RateLimit-Limit", toString info.capacity),
   ("X-RateLimit-Remaining", toString info.remaining),
   ("X-RateLimit-Reset", toString (pyInt info.reset_at))]

/-- Headers of the `RateLimitExceeded` exception: a `Retry-After` header
unless `retry_after` is falsy (`None` or `0`). -/
def rate_limit_exceeded_headers (retry_after : Option ℤ) :
    List (String × String) :=
  match retry_after with
  | some r => if r ≠ 0 then [("Retry-After", toString r)] else []
  | none => []

/-- `RateLimitMiddleware.dispatch`.  The outcome of
`rate_limiter.check_rate_limit` (which depends on the limiter, the store
and the clock) is passed in as `checkResult`; `appResponse` is what
`call_next` would produce. -/
def dispatch (exempt_paths : List String) (enable_timing : Bool)
    (path : String) (checkResult : Except RLErr RateInfo)
    (appResponse : HttpResponse) : DispatchResult :=
  if is_exempt exempt_paths path then
    { response := add_timing_header enable_timing appResponse
      next_called := true }
  else
    match checkResult with
    | .ok info =>
      { response := add_timing_header enable_timing
          { appResponse with
            headers := appResponse.headers ++ get_rate_limit_headers info }
        next_called := true }
    | .error (.rateLimitExceeded _detail retry_after) =>
      { response :=
          { status := 429
            headers := rate_limit_exceeded_headers retry_after
            body_tag := some "rate_limit_exceeded" }
        next_called := false }
    | .error (.pyErr _) =>
      -- `except Exception`: "Log error but don't block request"
      { response := add_timing_header enable_timing appResponse
        next_called := true }

/-! ## WebSocket token auth service (`backend/websocket/auth.py`) -/

/-- `JWT_SECRET` environment default. -/
def JWT_SECRET : String := "your-secret-key-change-in-production"

/-- `JWT_EXPIRATION_HOURS` environment default. -/
def JWT_EXPIRATION_HOURS : ℚ := 24

/-- `REFRESH_TOKEN_DAYS` environment default. -/
def REFRESH_TOKEN_DAYS : ℚ := 7

/-- The JWT claims this codebase reads (`additional_claims` beyond these
are not modelled).  `typ` is the `"type"` claim; timestamps are epoch
seconds. -/
structure JwtPayload where
  user_id : Option String
  typ : Option String
  iat : Option ℚ
  exp : Option ℚ
  nbf : Option ℚ
deriving DecidableEq, Repr

/-- A signed JWT, modelled as its payload plus the key it was signed
with; signature verification is key equality. -/
structure JwtToken where
  payload : JwtPayload
  key : String
deriving DecidableEq, Repr

/-- `WebSocketAuth.generate_access_token` (without extra claims):
`type=access`, `iat`/`nbf` now, `exp` now + 24h. -/
def generate_access_token (user_id : String) (now : ℚ) : JwtToken :=
  { payload :=
      { user_id := some user_id
        typ := some "access"
        iat := some now
        exp := some (now + JWT_EXPIRATION_HOURS * 3600)
        nbf := some now }
    key := JWT_SECRET }

/-- `WebSocketAuth.generate_refresh_token`: `type=refresh`, `exp`
now + 7 days, no `nbf`. -/
def generate_refresh_token (user_id : String) (now : ℚ) : JwtToken :=
  { payload :=
      { user_id := some user_id
        typ := some "refresh"
        iat := some now
        exp := some (now + REFRESH_TOKEN_DAYS * 86400)
        nbf := none }
    key := JWT_SECRET }

/-- Errors of `jwt.decode` (PyJWT): bad signature / immature `nbf` map to
`InvalidTokenError`, a past `exp` to `ExpiredSignatureError`. -/
inductive JwtErr where
  | expired
  | invalid (msg : String)
deriving DecidableEq, Repr

/-- PyJWT `exp` claim check (zero leeway): expired iff `exp < now`. -/
def jwt_expired (p : JwtPayload) (now : ℚ) : Bool :=
  match p.exp with
  | some e => decide (e < now)
  | none => false

/-- PyJWT `nbf` claim check (zero leeway): immature iff `now < nbf`. -/
def jwt_immature (p : JwtPayload) (now : ℚ) : Bool :=
  match p.nbf with
  | some n => decide (now < n)
  | none => false

/-- `jwt.decode(token, key, algorithms=...)`: verify the signature, then
the registered `exp` and `nbf` claims. -/
def jwt_decode (t : JwtToken) (key : String) (now : ℚ) :
    Except JwtErr JwtPayload :=
  if t.key ≠ key then .error (.invalid "Signature verification failed")
  else if jwt_expired t.payload now then .error .expired
  else if jwt_immature t.payload now then
    .error (.invalid "The token is not yet valid (nbf)")
  else .ok t.payload

/-- `WebSocketAuth.verify_token`: decode, then the redundant manual
expiry check `if exp and utcnow().timestamp() > exp` (Python truthiness:
skipped when `exp` is `0`).  Failures carry the `WebSocketAuthError`
message. -/
def verify_token (t : JwtToken) (now : ℚ) : Except String JwtPayload :=
  match jwt_decode t JWT_SECRET now with
  | .error .expired => .error "Token expired"
  | .error (.invalid m) => .error ("Invalid token: " ++ m)
  | .ok payload =>
    match payload.exp with
    | some e => if e ≠ 0 ∧ now > e then .error "Token expired" else .ok payload
    | none => .ok payload

/-- One `active_sessions` entry (the raw websocket reference it also
stores is not needed by any claim). -/
structure SessionData where
  user_id : String
  connected_at : ℚ
  last_activity : ℚ
deriving DecidableEq, Repr

/-- `WebSocketAuth` mutable state: `active_sessions` and
`connection_count`. -/
structure AuthState where
  active_sessions : List (String × SessionData)
  connection_count : List (String × ℤ)
deriving DecidableEq, Repr

/-- The freshly constructed `WebSocketAuth()`. -/
def AuthState.empty : AuthState := ⟨[], []⟩

/-- `WebSocketAuth._create_session`; the fresh `uuid4` session id is
passed in as `session_id`. -/
def create_session (a : AuthState) (user_id : String) (session_id : String)
    (now : ℚ) : AuthState :=
  { a with
    active_sessions := aset a.active_sessions session_id ⟨user_id, now, now⟩ }

/-- `WebSocketAuth._increment_connection_count`. -/
def increment_connection_count (a : AuthState) (user_id : String) :
    AuthState :=
  let c := match alookup a.connection_count user_id with
    | some c => c
    | none => 0
  { a with connection_count := aset a.connection_count user_id (c + 1) }

/-- `WebSocketAuth._decrement_connection_count` (floored at zero). -/
def decrement_connection_count (a : AuthState) (user_id : String) :
    AuthState :=
  match alookup a.connection_count user_id with
  | some c =>
    { a with connection_count := aset a.connection_count user_id (max 0 (c - 1)) }
  | none => a

/-- `WebSocketAuth.close_session`: decrement the owner's counter and drop
the session (no-op for an unknown id). -/
def close_session (a : AuthState) (session_id : String) : AuthState :=
  match alookup a.active_sessions session_id with
  | some sd =>
    let a1 := decrement_connection_count a sd.user_id
    { a1 with active_sessions := aremove a1.active_sessions session_id }
  | none => a

/-- `WebSocketAuth.update_session_activity`. -/
def update_session_activity (a : AuthState) (session_id : String) (now : ℚ) :
    AuthState :=
  match alookup a.active_sessions session_id with
  | some sd =>
    { a with
      active_sessions :=
        aset a.active_sessions session_id { sd with last_activity := now } }
  | none => a

/-- `WebSocketAuth.get_user_connection_count`. -/
def get_user_connection_count (a : AuthState) (user_id : String) : ℤ :=
  match alookup a.connection_count user_id with
  | some c => c
  | none => 0

/-- The token sources `authenticate_connection` consults on a websocket:
the `token` query parameter and the `Authorization: Bearer` header (the
header is modelled post-parsing, already stripped of the `Bearer `
prefix). -/
structure WsConn where
  query_token : Option JwtToken
  bearer_token : Option JwtToken
deriving DecidableEq, Repr

/-- A `WebSocketException` raised by `authenticate_connection`:
`WebSocketAuthError`s become policy violations (close code 1008), other
exceptions internal errors (1011). -/
inductive WsException where
  | policyViolation (reason : String)
  | internalError
deriving DecidableEq, Repr

/-- `WebSocketAuth.authenticate_connection`: resolve the token (explicit
argument, then query parameter, then bearer header), verify it, require a
truthy `user_id` claim, then create a session under the fresh id and
increment the user's connection counter.  No check of the token's `type`
claim is performed. -/
def authenticate_connection (a : AuthState) (ws : WsConn)
    (token : Option JwtToken) (session_id : String) (now : ℚ) :
    Except WsException (AuthState × String × String) :=
  let tok := match token with
    | some t => some t
    | none =>
      match ws.query_token with
      | some t => some t
      | none => ws.bearer_token
  match tok with
  | none => .error (.policyViolation "No authentication token provided")
  | some t =>
    match verify_token t now with
    | .error msg => .error (.policyViolation msg)
    | .ok payload =>
      match payload.user_id with
      | none => .error (.policyViolation "Invalid token payload")
      | some uid =>
        if uid = "" then .error (.policyViolation "Invalid token payload")
        else
          let a1 := create_session a uid session_id now
          let a2 := increment_connection_count a1 uid
          .ok (a2, uid, session_id)

/-! ## Connection manager (`backend/websocket/connection_manager.py`) -/

/-- Transport-level effects `ConnectionManager.connect` performs on the
connecting websocket (the close calls in `connect` always target the new
websocket, never an already-registered one). -/
inductive WsEffect where
  | accept
  | close (code : ℕ) (reason : String)
  | sendJson (session_id : String) (msg_type : String)
deriving DecidableEq, Repr

/-- The exception escaping a failed `ConnectionManager.connect`:
the re-raised `WebSocketDisconnect` on a limit violation, or the
re-raised authentication `WebSocketException`. -/
inductive ConnErr where
  | wsDisconnect (code : ℕ)
  | wsException (e : WsException)
deriving DecidableEq, Repr

/-- The dictionary returned by a successful `connect`. -/
structure ConnInfo where
  session_id : String
  user_id : String
  connection_count : ℕ
deriving DecidableEq, Repr

/-- `ConnectionManager.__init__` state: `connections`
(session id → websocket, modelled by a numeric handle), `user_sessions`,
`session_user_map` and the ceiling. -/
structure CMState where
  connections : List (String × ℕ)
  user_sessions : List (String × List String)
  session_user_map : List (String × String)
  max_connections_per_user : ℕ
deriving DecidableEq, Repr

/-- `ConnectionManager._check_connection_limit`. -/
def check_connection_limit (cm : CMState) (user_id : String) : Bool :=
  let current_count := match alookup cm.user_sessions user_id with
    | some l => l.length
    | none => 0
  current_count < cm.max_connections_per_user

/-- `ConnectionManager.connect`: accept, authenticate (which already
creates the auth session and increments the auth counter), then enforce
the per-user ceiling — on violation close 1008 and raise
`WebSocketDisconnect`, which the surrounding `except` turns into a second
close 1011 before re-raising — and otherwise register the session in all
three maps and push `auth_success` (whose delivery refreshes the session
activity).  The websocket send is modelled as succeeding. -/
def connect (cm : CMState) (a : AuthState) (wsId : ℕ) (ws : WsConn)
    (token : Option JwtToken) (session_id : String) (now : ℚ) :
    CMState × AuthState × List WsEffect × Except ConnErr ConnInfo :=
  match authenticate_connection a ws token session_id now with
  | .error e =>
    (cm, a, [.accept, .close 1011 "Connection error"], .error (.wsException e))
  | .ok (a1, uid, sid) =>
    if check_connection_limit cm uid = false then
      (cm, a1,
        [.accept, .close 1008 "Connection limit exceeded",
         .close 1011 "Connection error"],
        .error (.wsDisconnect 1008))
    else
      let prev := match alookup cm.user_sessions uid with
        | some l => l
        | none => []
      let cm1 : CMState :=
        { cm with
          connections := aset cm.connections sid wsId
          session_user_map := aset cm.session_user_map sid uid
          user_sessions := aset cm.user_sessions uid (prev ++ [sid]) }
      let a2 := update_session_activity a1 sid now
      (cm1, a2, [.accept, .sendJson sid "auth_success"],
        .ok ⟨sid, uid, (prev ++ [sid]).length⟩)

/-- `ConnectionManager.disconnect`: idempotent removal from all three
maps (dropping the user's entry when its session list empties) and
closing of the auth session. -/
def disconnect (cm : CMState) (a : AuthState) (session_id : String) :
    CMState × AuthState :=
  match alookup cm.connections session_id with
  | none => (cm, a)
  | some _ =>
    let uid? := alookup cm.session_user_map session_id
    let cm1 : CMState :=
      { cm with
        connections := aremove cm.connections session_id
        session_user_map := aremove cm.session_user_map session_id }
    let cm2 : CMState :=
      match uid? with
      | some uid =>
        if uid ≠ "" then
          match alookup cm1.user_sessions uid with
          | some l =>
            let l1 := l.erase session_id
            if l1 = [] then
              { cm1 with user_sessions := aremove cm1.user_sessions uid }
            else
              { cm1 with user_sessions := aset cm1.user_sessions uid l1 }
          | none => cm1
        else cm1
      | none => cm1
    (cm2, close_session a session_id)

/-- A sequence of `consume` calls on one identifier: each step supplies
the wall-clock time of the call and its token cost, and the store is
threaded through (exceptions abort one call after any write it already
made, so threading the store models the surviving state). -/
def runConsumes (b : TokenBucket) (identifier : String) :
    List (ℚ × ℤ) → Store → Store
  | [], s => s
  | (now, cost) :: rest, s =>
    runConsumes b identifier rest (b.consume s identifier now cost).1

/-! ## Theorems -/

theorem alookup_aset {α : Type} (l : List (String × α)) (key key2 : String)
    (v : α) :
    alookup (aset l key v) key2 =
      if key = key2 then some v else alookup l key2 := by
  induction l with
  | nil => simp [aset, alookup]
  | cons hd tl ih =>
    obtain ⟨k, w⟩ := hd
    by_cases hk : k = key
    · subst hk
      by_cases h2 : k = key2
      · simp [aset, alookup, h2]
      · simp [aset, alookup, h2]
    · by_cases h2 : k = key2
      · subst h2
        have hne : key ≠ k := fun h => hk h.symm
        simp [aset, alookup, hk, hne]
      · simp [aset, alookup, hk, h2, ih]

theorem Store.get_set (s : Store) (key key2 : String) (d : BucketData) :
    Store.get (Store.set s key d) key2 =
      if key = key2 then some d else Store.get s key2 :=
  alookup_aset s key key2 d

theorem pyInt_eq_floor (q : ℚ) (h : 0 ≤ q) : pyInt q = ⌊q⌋ := by
  simp [pyInt, h]


/-- C6: with capacity 3 and refill rate 0, the very first `consume` (not
the fourth) raises `ZeroDivisionError` computing `reset_at`, after having
persisted the decremented state; the call does not return normally. -/
theorem consume_zero_refill_raises :
    TokenBucket.consume ⟨3, 0, true⟩ Store.empty "user:42" 0 1 =
      ([("rate_limit:bucket:user:42", ⟨2, 0⟩)], .error .zeroDivision) := by
  norm_num +decide [TokenBucket.consume, TokenBucket.get_bucket_state,
    TokenBucket.set_bucket_state, Store.get, Store.set, Store.empty,
    get_bucket_key, alookup, aset, pyInt]

/-- C1: the bucket key `rate_limit:bucket:<identifier>` omits the tier,
so every tier bucket of one identity shares one stored state; with 100
tokens stored for `user:alice`, tier `pro` reports 100 remaining before
`reset_user_limit(alice, tier="free")` and only 20 (the `free` capacity
the reset wrote) afterwards. -/
theorem reset_free_changes_pro_remaining :
    ((RateLimiter.get_user_limits (mkRateLimiter true)
        [("rate_limit:bucket:user:alice", ⟨100, 0⟩)] "alice" 0).2.toOption.bind
      (fun l => (alookup l "pro").map (fun t => t.remaining)) = some 100)
    ∧ ((RateLimiter.get_user_limits (mkRateLimiter true)
        (RateLimiter.reset_user_limit (mkRateLimiter true)
          [("rate_limit:bucket:user:alice", ⟨100, 0⟩)] "alice" (some "free") 0)
        "alice" 0).2.toOption.bind
      (fun l => (alookup l "pro").map (fun t => t.remaining)) = some 20) := by
  norm_num +decide [RateLimiter.get_user_limits, RateLimiter.get_user_limits_go,
    RateLimiter.reset_user_limit, mkRateLimiter, TokenBucket.get_bucket_state,
    TokenBucket.set_bucket_state, Store.get, Store.set, get_bucket_key,
    alookup, aset, pyInt, Except.toOption]

/-- C2 counterexample: capacity 10, refill rate 2, stored tokens 0; a
`consume` of cost 1 is rejected with `retry_after = int(1/2) = 0`, while
the claimed `ceil((cost - tokens)/refillRate) = ceil(1/2) = 1`. -/
theorem consume_retry_after_not_ceil :
    ((TokenBucket.consume ⟨10, 2, true⟩ [("rate_limit:bucket:u", ⟨0, 5⟩)]
        "u" 5 1).2.toOption.map (fun r => r.2.retry_after) = some (some 0))
    ∧ (⌈((1 : ℚ) - 0) / 2⌉ = 1) := by
  constructor
  · norm_num +decide [TokenBucket.consume, TokenBucket.get_bucket_state,
      TokenBucket.set_bucket_state, Store.get, Store.set, get_bucket_key,
      alookup, aset, pyInt, Except.toOption]
  · rw [Int.ceil_eq_iff]
    norm_num

/-- C2 (amended): a rejected `consume` returns `allowed = false`,
`remaining = 0`, `retry_after = int((cost - tokens)/refill_rate)` — Python
`int()` truncation, not the ceiling — with `reset_at` as specified, and
leaves the stored bucket state unmodified. -/
theorem consume_reject_truncated_retry (b : TokenBucket) (s : Store)
    (identifier : String) (now : ℚ) (cost : ℤ) (d : BucketData)
    (hred : b.hasRedis = true)
    (hs : Store.get s (get_bucket_key identifier) = some d)
    (hrate : b.refill_rate ≠ 0)
    (hlt : min (b.capacity : ℚ)
        (d.tokens + (now - d.last_refill) * b.refill_rate) < (cost : ℚ)) :
    b.consume s identifier now cost =
      (s, .ok (false,
        { allowed := false
          remaining := 0
          capacity := b.capacity
          retry_after := some (pyInt (((cost : ℚ) -
            min (b.capacity : ℚ)
              (d.tokens + (now - d.last_refill) * b.refill_rate)) /
            b.refill_rate))
          reset_at := now + ((b.capacity : ℚ) -
            min (b.capacity : ℚ)
              (d.tokens + (now - d.last_refill) * b.refill_rate)) /
            b.refill_rate })) := by
  have hnle := not_le.mpr hlt
  simp [TokenBucket.consume, TokenBucket.get_bucket_state, hred, hs, hnle,
    hrate]

/-- C2 witness. -/
theorem consume_reject_truncated_retry_witness :
    TokenBucket.consume ⟨10, 2, true⟩ [("rate_limit:bucket:u", ⟨0, 5⟩)]
        "u" 5 1 =
      ([("rate_limit:bucket:u", ⟨0, 5⟩)], .ok (false,
        { allowed := false
          remaining := 0
          capacity := 10
          retry_after := some (pyInt (((1 : ℚ) - min ((10 : ℤ) : ℚ)
            (0 + ((5 : ℚ) - 5) * 2)) / 2))
          reset_at := 5 + (((10 : ℤ) : ℚ) - min ((10 : ℤ) : ℚ)
            (0 + ((5 : ℚ) - 5) * 2)) / 2 })) :=
  consume_reject_truncated_retry ⟨10, 2, true⟩
    [("rate_limit:bucket:u", ⟨0, 5⟩)] "u" 5 1 ⟨0, 5⟩ rfl
    (by norm_num +decide [Store.get, get_bucket_key, alookup])
    (by norm_num) (by norm_num)

/-- C3: when the refilled level covers the cost, `consume` subtracts the
cost, persists `(tokens, now)` under the bucket key, and returns
`allowed = true`, `remaining = ⌊tokens⌋` and
`reset_at = now + (capacity - tokens)/refill_rate` (with a non-zero
refill rate; a zero rate instead raises `ZeroDivisionError`, see the C6
theorem). -/
theorem consume_allow_spec (b : TokenBucket) (s s1 : Store)
    (identifier : String) (now : ℚ) (cost : ℤ) (tokens0 last0 : ℚ)
    (hred : b.hasRedis = true)
    (hstate : b.get_bucket_state s identifier now = ((tokens0, last0), s1))
    (hrate : b.refill_rate ≠ 0)
    (hge : (cost : ℚ) ≤ min (b.capacity : ℚ)
      (tokens0 + (now - last0) * b.refill_rate)) :
    b.consume s identifier now cost =
      (Store.set s1 (get_bucket_key identifier)
        ⟨min (b.capacity : ℚ) (tokens0 + (now - last0) * b.refill_rate) -
          (cost : ℚ), now⟩,
       .ok (true,
        { allowed := true
          remaining := ⌊min (b.capacity : ℚ)
            (tokens0 + (now - last0) * b.refill_rate) - (cost : ℚ)⌋
          capacity := b.capacity
          retry_after := none
          reset_at := now + ((b.capacity : ℚ) -
            (min (b.capacity : ℚ) (tokens0 + (now - last0) * b.refill_rate) -
              (cost : ℚ))) / b.refill_rate })) := by
  have hfloor : pyInt (min (b.capacity : ℚ)
      (tokens0 + (now - last0) * b.refill_rate) - (cost : ℚ)) =
      ⌊min (b.capacity : ℚ) (tokens0 + (now - last0) * b.refill_rate) -
        (cost : ℚ)⌋ :=
    pyInt_eq_floor _ (by linarith)
  simp [TokenBucket.consume, TokenBucket.set_bucket_state, hstate, hred,
    hge, hrate, hfloor]

/-- C3 witness. -/
theorem consume_allow_spec_witness :
    TokenBucket.consume ⟨10, 2, true⟩ [("rate_limit:bucket:u", ⟨5, 5⟩)]
        "u" 5 1 =
      (Store.set [("rate_limit:bucket:u", ⟨5, 5⟩)] (get_bucket_key "u")
        ⟨min ((10 : ℤ) : ℚ) (5 + ((5 : ℚ) - 5) * 2) - (1 : ℚ), 5⟩,
       .ok (true,
        { allowed := true
          remaining := ⌊min ((10 : ℤ) : ℚ) (5 + ((5 : ℚ) - 5) * 2) - (1 : ℚ)⌋
          capacity := 10
          retry_after := none
          reset_at := 5 + (((10 : ℤ) : ℚ) -
            (min ((10 : ℤ) : ℚ) (5 + ((5 : ℚ) - 5) * 2) - (1 : ℚ))) / 2 })) :=
  consume_allow_spec ⟨10, 2, true⟩ [("rate_limit:bucket:u", ⟨5, 5⟩)]
    [("rate_limit:bucket:u", ⟨5, 5⟩)] "u" 5 1 5 5 rfl
    (by norm_num +decide [TokenBucket.get_bucket_state, Store.get,
      get_bucket_key, alookup])
    (by norm_num) (by norm_num)

/-- One `consume` call keeps the identifier's stored tokens within
`[0, capacity]`, for any call time and any nonnegative cost. -/
theorem consume_preserves_bounds (b : TokenBucket) (s : Store)
    (identifier : String) (now : ℚ) (cost : ℤ)
    (hcap : 0 ≤ b.capacity) (hcost : 0 ≤ cost)
    (hP : ∀ d, Store.get s (get_bucket_key identifier) = some d →
      0 ≤ d.tokens ∧ d.tokens ≤ (b.capacity : ℚ)) :
    ∀ d, Store.get (b.consume s identifier now cost).1
        (get_bucket_key identifier) = some d →
      0 ≤ d.tokens ∧ d.tokens ≤ (b.capacity : ℚ) := by
  intro d hd
  cases hb : b.hasRedis with
  | false =>
    have h1 : (b.consume s identifier now cost).1 = s := by
      simp only [TokenBucket.consume, TokenBucket.get_bucket_state,
        TokenBucket.set_bucket_state, hb]
      split_ifs <;> rfl
    exact hP d (h1 ▸ hd)
  | true =>
    cases hget : Store.get s (get_bucket_key identifier) with
    | none =>
      have h1 : (b.consume s identifier now cost).1 =
          (if (cost : ℚ) ≤ min (b.capacity : ℚ)
              ((b.capacity : ℚ) + (now - now) * b.refill_rate) then
            Store.set (Store.set s (get_bucket_key identifier)
              ⟨(b.capacity : ℚ), now⟩) (get_bucket_key identifier)
              ⟨min (b.capacity : ℚ)
                ((b.capacity : ℚ) + (now - now) * b.refill_rate) -
                (cost : ℚ), now⟩
          else Store.set s (get_bucket_key identifier)
            ⟨(b.capacity : ℚ), now⟩) := by
        simp only [TokenBucket.consume, TokenBucket.get_bucket_state,
          TokenBucket.set_bucket_state, hb, hget]
        split_ifs <;> simp_all
      rw [h1] at hd
      by_cases hc : (cost : ℚ) ≤ min (b.capacity : ℚ)
          ((b.capacity : ℚ) + (now - now) * b.refill_rate)
      · rw [if_pos hc, Store.get_set, if_pos rfl] at hd
        obtain rfl : d = ⟨min (b.capacity : ℚ)
            ((b.capacity : ℚ) + (now - now) * b.refill_rate) -
            (cost : ℚ), now⟩ := by
          injection hd with h
          exact h.symm
        constructor
        · have := hc
          have h0 : (0 : ℚ) ≤ (cost : ℚ) := by exact_mod_cast hcost
          simp only []
          linarith
        · have hmin : min (b.capacity : ℚ)
              ((b.capacity : ℚ) + (now - now) * b.refill_rate) ≤
              (b.capacity : ℚ) := min_le_left _ _
          have h0 : (0 : ℚ) ≤ (cost : ℚ) := by exact_mod_cast hcost
          simp only []
          linarith
      · rw [if_neg hc, Store.get_set, if_pos rfl] at hd
        obtain rfl : d = ⟨(b.capacity : ℚ), now⟩ := by
          injection hd with h
          exact h.symm
        have h0 : (0 : ℚ) ≤ (b.capacity : ℚ) := by exact_mod_cast hcap
        exact ⟨h0, le_refl _⟩
    | some d0 =>
      have h1 : (b.consume s identifier now cost).1 =
          (if (cost : ℚ) ≤ min (b.capacity : ℚ)
              (d0.tokens + (now - d0.last_refill) * b.refill_rate) then
            Store.set s (get_bucket_key identifier)
              ⟨min (b.capacity : ℚ)
                (d0.tokens + (now - d0.last_refill) * b.refill_rate) -
                (cost : ℚ), now⟩
          else s) := by
        simp only [TokenBucket.consume, TokenBucket.get_bucket_state,
          TokenBucket.set_bucket_state, hb, hget]
        split_ifs <;> simp_all
      rw [h1] at hd
      by_cases hc : (cost : ℚ) ≤ min (b.capacity : ℚ)
          (d0.tokens + (now - d0.last_refill) * b.refill_rate)
      · rw [if_pos hc, Store.get_set, if_pos rfl] at hd
        obtain rfl : d = ⟨min (b.capacity : ℚ)
            (d0.tokens + (now - d0.last_refill) * b.refill_rate) -
            (cost : ℚ), now⟩ := by
          injection hd with h
          exact h.symm
        have h0 : (0 : ℚ) ≤ (cost : ℚ) := by exact_mod_cast hcost
        have hmin : min (b.capacity : ℚ)
            (d0.tokens + (now - d0.last_refill) * b.refill_rate) ≤
            (b.capacity : ℚ) := min_le_left _ _
        constructor
        · simp only []
          linarith
        · simp only []
          linarith
      · rw [if_neg hc] at hd
        exact hP d hd

/-- C4: over any sequence of `consume` calls on one identifier (arbitrary
call times, nonnegative costs), the stored token count stays within
`[0, capacity]`. -/
theorem consume_capacity_invariant (b : TokenBucket) (identifier : String)
    (steps : List (ℚ × ℤ))
    (hcap : 0 ≤ b.capacity) (hcost : ∀ p ∈ steps, 0 ≤ p.2) :
    ∀ d, Store.get (runConsumes b identifier steps Store.empty)
        (get_bucket_key identifier) = some d →
      0 ≤ d.tokens ∧ d.tokens ≤ (b.capacity : ℚ) := by
  have main : ∀ (l : List (ℚ × ℤ)) (s : Store),
      (∀ p ∈ l, 0 ≤ p.2) →
      (∀ d, Store.get s (get_bucket_key identifier) = some d →
        0 ≤ d.tokens ∧ d.tokens ≤ (b.capacity : ℚ)) →
      ∀ d, Store.get (runConsumes b identifier l s)
          (get_bucket_key identifier) = some d →
        0 ≤ d.tokens ∧ d.tokens ≤ (b.capacity : ℚ) := by
    intro l
    induction l with
    | nil =>
      intro s _ hP
      simpa [runConsumes] using hP
    | cons p rest ih =>
      intro s hc hP
      obtain ⟨now, cost⟩ := p
      simp only [runConsumes]
      exact ih _ (fun q hq => hc q (List.mem_cons_of_mem _ hq))
        (consume_preserves_bounds b s identifier now cost hcap
          (hc _ (List.mem_cons_self _ _)) hP)
  exact main steps Store.empty hcost
    (fun d hd => by simp [Store.get, Store.empty, alookup] at hd)

/-- C4 witness. -/
theorem consume_capacity_invariant_witness :
    0 ≤ (2 : ℚ) ∧ (2 : ℚ) ≤ ((3 : ℤ) : ℚ) :=
  consume_capacity_invariant ⟨3, 1, true⟩ "u" [(0, 1)] (by norm_num)
    (by norm_num) ⟨2, 0⟩
    (by norm_num +decide [runConsumes, TokenBucket.consume,
      TokenBucket.get_bucket_state, TokenBucket.set_bucket_state, Store.get,
      Store.set, Store.empty, get_bucket_key, alookup, aset])

/-- A rejected `consume` whose cost is within capacity leaves the store
exactly as it was (the rejection branch performs no write, and a lazily
initialized bucket at full capacity cannot reject such a cost). -/
theorem consume_reject_store_unchanged (b : TokenBucket) (s : Store)
    (identifier : String) (now : ℚ) (cost : ℤ) (info : RateInfo)
    (hcost : (cost : ℚ) ≤ (b.capacity : ℚ))
    (h : (b.consume s identifier now cost).2 = .ok (false, info)) :
    (b.consume s identifier now cost).1 = s := by
  cases hb : b.hasRedis with
  | false =>
    simp only [TokenBucket.consume, TokenBucket.get_bucket_state,
      TokenBucket.set_bucket_state, hb] at h ⊢
    split_ifs at h ⊢ <;> simp_all
  | true =>
    cases hget : Store.get s (get_bucket_key identifier) with
    | none =>
      exfalso
      have hle : cost ≤ b.capacity := by exact_mod_cast hcost
      simp [TokenBucket.consume, TokenBucket.get_bucket_state,
        TokenBucket.set_bucket_state, hb, hget] at h
      rw [if_pos hle] at h
      split_ifs at h
      all_goals simp_all
    | some d0 =>
      simp [TokenBucket.consume, TokenBucket.get_bucket_state,
        TokenBucket.set_bucket_state, hb, hget] at h ⊢
      split_ifs at h ⊢ <;> simp_all

/-- C5: `check_rate_limit` consumes the raw-IP bucket (capacity 60,
refill 60/60 per second) first: whenever that bucket rejects, it raises
`RateLimitExceeded` carrying the IP bucket's `retry_after` and leaves the
whole store — in particular every tier bucket — unchanged. -/
theorem check_rate_limit_ip_guard_first (hash16 : String → String)
    (s : Store) (req : Request) (now : ℚ) (ip_info : RateInfo)
    (hrej : ((mkRateLimiter true).ip_limit.consume s
        ("ip:" ++ (match req.client with | some h => h | none => "unknown"))
        now 1).2 = .ok (false, ip_info)) :
    RateLimiter.check_rate_limit (mkRateLimiter true) hash16 s req now =
      (s, .error (.rateLimitExceeded "Too many requests from your IP address"
        ip_info.retry_after))
    ∧ (mkRateLimiter true).ip_limit.capacity = 60
    ∧ (mkRateLimiter true).ip_limit.refill_rate = 60 / 60 := by
  refine ⟨?_, rfl, rfl⟩
  have hunch : ((mkRateLimiter true).ip_limit.consume s
      ("ip:" ++ (match req.client with | some h => h | none => "unknown"))
      now 1).1 = s :=
    consume_reject_store_unchanged _ _ _ _ _ _ (by norm_num [mkRateLimiter])
      hrej
  have hfull : (mkRateLimiter true).ip_limit.consume s
      ("ip:" ++ (match req.client with | some h => h | none => "unknown"))
      now 1 = (s, .ok (false, ip_info)) := by
    rw [Prod.ext_iff]
    exact ⟨hunch, hrej⟩
  unfold RateLimiter.check_rate_limit
  simp only [hfull]
  exact if_pos trivial

/-- C5 witness. -/
theorem check_rate_limit_ip_guard_first_witness :
    (RateLimiter.check_rate_limit (mkRateLimiter true) (fun _ => "h")
        [("rate_limit:bucket:ip:1.2.3.4", ⟨0, 0⟩)]
        ⟨none, none, some "1.2.3.4", "/api/x"⟩ 0 =
      ([("rate_limit:bucket:ip:1.2.3.4", ⟨0, 0⟩)],
        .error (.rateLimitExceeded "Too many requests from your IP address"
          (some 1))))
    ∧ (mkRateLimiter true).ip_limit.capacity = 60
    ∧ (mkRateLimiter true).ip_limit.refill_rate = 60 / 60 :=
  check_rate_limit_ip_guard_first (fun _ => "h")
    [("rate_limit:bucket:ip:1.2.3.4", ⟨0, 0⟩)]
    ⟨none, none, some "1.2.3.4", "/api/x"⟩ 0
    ⟨false, 0, 60, some 1, 60⟩
    (by norm_num +decide [mkRateLimiter, TokenBucket.consume,
      TokenBucket.get_bucket_state, TokenBucket.set_bucket_state, Store.get,
      Store.set, get_bucket_key, alookup, aset, pyInt])

/-- C9 counterexample: with the check failing on an infrastructure error
(e.g. the backing store unreachable), `dispatch` still runs `call_next`
and returns the app's 200 response: the failure is swallowed and the
request proceeds as if the check had passed. -/
theorem dispatch_swallows_infra_error :
    (dispatch default_exempt_paths true "/api/chat"
        (.error (.pyErr .storeUnavailable)) ⟨200, [], none⟩).next_called = true
    ∧ (dispatch default_exempt_paths true "/api/chat"
        (.error (.pyErr .storeUnavailable)) ⟨200, [], none⟩).response.status
      = 200 := by
  constructor
  · decide
  · decide

/-- C9 (amended): when `check_rate_limit` raises any exception other
than `RateLimitExceeded`, the middleware logs it and fails open: the
request proceeds through `call_next` and its response is returned (plus
the timing header, without rate-limit headers); the error is not
surfaced to the caller. -/
theorem dispatch_fail_open (exempt_paths : List String)
    (enable_timing : Bool) (path : String) (e : PyErr) (resp : HttpResponse)
    (hex : is_exempt exempt_paths path = false) :
    dispatch exempt_paths enable_timing path (.error (.pyErr e)) resp =
      ⟨add_timing_header enable_timing resp, true⟩ := by
  simp [dispatch, hex]

/-- C9 witness. -/
theorem dispatch_fail_open_witness :
    is_exempt default_exempt_paths "/api/chat" = false
    ∧ dispatch default_exempt_paths true "/api/chat"
        (.error (.pyErr .zeroDivision)) ⟨200, [], none⟩ =
      ⟨add_timing_header true ⟨200, [], none⟩, true⟩ :=
  ⟨by decide, dispatch_fail_open default_exempt_paths true "/api/chat"
    .zeroDivision ⟨200, [], none⟩ (by decide)⟩

/-- C10: `authenticate_connection` never reads the token's `type`
claim: a valid, unexpired refresh token authenticates a WebSocket
connection, creating a session for the embedded `user_id` and
incrementing its connection counter, and changing any token's `type`
claim never changes the authentication outcome. -/
theorem refresh_token_authenticates (a : AuthState) (ws : WsConn)
    (session_id : String) (now t0 : ℚ) (uid : String)
    (p : JwtPayload) (key : String) (ty : Option String)
    (huid : uid ≠ "") (hexp : now ≤ t0 + REFRESH_TOKEN_DAYS * 86400) :
    (authenticate_connection a ws (some (generate_refresh_token uid t0))
        session_id now =
      .ok (increment_connection_count (create_session a uid session_id now)
        uid, uid, session_id))
    ∧ (authenticate_connection a ws (some ⟨{ p with typ := ty }, key⟩)
        session_id now =
      authenticate_connection a ws (some ⟨p, key⟩) session_id now) := by
  constructor
  · have h1 : ¬ (t0 + REFRESH_TOKEN_DAYS * 86400 < now) := not_lt.mpr hexp
    have h2 : ¬ (now > t0 + REFRESH_TOKEN_DAYS * 86400) := not_lt.mpr hexp
    simp [authenticate_connection, verify_token, jwt_decode,
      generate_refresh_token, jwt_expired, jwt_immature, h1, h2, huid]
  · rcases p with ⟨u, t, i, e, n⟩
    by_cases hk : key = JWT_SECRET <;>
      cases u <;> cases e <;> cases n <;>
        simp [authenticate_connection, verify_token, jwt_decode,
          jwt_expired, jwt_immature, hk] <;>
        split_ifs <;>
        simp_all <;>
        split_ifs <;>
        simp_all

/-- C10 witness. -/
theorem refresh_token_authenticates_witness :
    ("u" ≠ "")
    ∧ ((5 : ℚ) ≤ 0 + REFRESH_TOKEN_DAYS * 86400)
    ∧ ((authenticate_connection AuthState.empty ⟨none, none⟩
        (some (generate_refresh_token "u" 0)) "sid" 5 =
      .ok (increment_connection_count
        (create_session AuthState.empty "u" "sid" 5) "u", "u", "sid"))
    ∧ (authenticate_connection AuthState.empty ⟨none, none⟩
        (some ⟨{ user_id := some "u", typ := some "access", iat := some 0,
                 exp := some 604800, nbf := none }, JWT_SECRET⟩) "sid" 5 =
      authenticate_connection AuthState.empty ⟨none, none⟩
        (some ⟨{ user_id := some "u", typ := some "refresh", iat := some 0,
                 exp := some 604800, nbf := none }, JWT_SECRET⟩) "sid" 5)) :=
  ⟨by decide, by norm_num [REFRESH_TOKEN_DAYS],
   refresh_token_authenticates AuthState.empty ⟨none, none⟩ "sid" 5 0 "u"
     ⟨some "u", some "refresh", some 0, some 604800, none⟩ JWT_SECRET
     (some "access") (by decide) (by norm_num [REFRESH_TOKEN_DAYS])⟩

/-- C7: with the ceiling at 2 and two sessions registered for the
user, a third `connect` that authenticates successfully is rejected: the
new websocket is closed with policy-violation code 1008 (then 1011 by
the outer handler), `WebSocketDisconnect` is raised, and the connection
manager's maps are left exactly as they were, so the third session is
not registered and the first two stay registered with no close directed
at them. -/
theorem connect_rejects_over_limit (cm : CMState) (a a1 : AuthState)
    (wsId : ℕ) (ws : WsConn) (token : Option JwtToken)
    (session_id : String) (now : ℚ) (uid : String)
    (hmax : cm.max_connections_per_user = 2)
    (hsess : (match alookup cm.user_sessions uid with
      | some l => l.length | none => 0) = 2)
    (hauth : authenticate_connection a ws token session_id now =
      .ok (a1, uid, session_id)) :
    connect cm a wsId ws token session_id now =
      (cm, a1,
        [.accept, .close 1008 "Connection limit exceeded",
         .close 1011 "Connection error"],
        .error (.wsDisconnect 1008)) := by
  have hlim : check_connection_limit cm uid = false := by
    simp only [check_connection_limit]
    rw [hsess, hmax]
    decide
  simp [connect, hauth, hlim]

/-- C7 witness. -/
theorem connect_rejects_over_limit_witness :
    ((⟨[("s1", 1), ("s2", 2)], [("u", ["s1", "s2"])],
        [("s1", "u"), ("s2", "u")], 2⟩ : CMState).max_connections_per_user
      = 2)
    ∧ ((match alookup [("u", ["s1", "s2"])] "u" with
        | some l => l.length | none => 0) = 2)
    ∧ (connect ⟨[("s1", 1), ("s2", 2)], [("u", ["s1", "s2"])],
          [("s1", "u"), ("s2", "u")], 2⟩ AuthState.empty 3 ⟨none, none⟩
          (some (generate_access_token "u" 0)) "s3" 0 =
        (⟨[("s1", 1), ("s2", 2)], [("u", ["s1", "s2"])],
          [("s1", "u"), ("s2", "u")], 2⟩,
         ⟨[("s3", ⟨"u", 0, 0⟩)], [("u", 1)]⟩,
         [.accept, .close 1008 "Connection limit exceeded",
          .close 1011 "Connection error"],
         .error (.wsDisconnect 1008))) :=
  ⟨rfl, by decide,
   connect_rejects_over_limit
     ⟨[("s1", 1), ("s2", 2)], [("u", ["s1", "s2"])],
       [("s1", "u"), ("s2", "u")], 2⟩
     AuthState.empty ⟨[("s3", ⟨"u", 0, 0⟩)], [("u", 1)]⟩ 3 ⟨none, none⟩
     (some (generate_access_token "u" 0)) "s3" 0 "u" rfl (by decide)
     (by norm_num +decide [authenticate_connection, verify_token, jwt_decode,
       jwt_expired, jwt_immature, generate_access_token, create_session,
       increment_connection_count, alookup, aset, AuthState.empty,
       JWT_EXPIRATION_HOURS])⟩

/-- C8: after two successful connects and one over-limit rejected
connect for the same user (ceiling 2), the auth service's
`connection_count` reads 3 while the connection manager's
`user_sessions` holds 2 sessions: the rejected connect incremented the
auth counter and created an auth session that nothing cleans up, so the
two bookkeeping systems diverge. -/
theorem rejected_connect_leaks_auth_count :
    (let tok := generate_access_token "u" 0
     let ws : WsConn := ⟨none, none⟩
     let r1 := connect ⟨[], [], [], 2⟩ AuthState.empty 1 ws (some tok) "s1" 0
     let r2 := connect r1.1 r1.2.1 2 ws (some tok) "s2" 0
     let r3 := connect r2.1 r2.2.1 3 ws (some tok) "s3" 0
     get_user_connection_count r3.2.1 "u" = 3
     ∧ (match alookup r3.1.user_sessions "u" with
        | some l => l.length | none => 0) = 2
     ∧ r3.2.2.2 = .error (.wsDisconnect 1008)) := by
  norm_num +decide [connect, authenticate_connection, verify_token,
    jwt_decode, jwt_expired, jwt_immature, generate_access_token,
    create_session, increment_connection_count, update_session_activity,
    check_connection_limit, get_user_connection_count, alookup, aset,
    AuthState.empty, JWT_EXPIRATION_HOURS]
